import Mathlib

/-!
Verification of the webhook token-refresh service (webhook-token-refresh.py).

Python strings are modelled as `List Char`.  Subprocess and network effects
are modelled by explicit oracle values; Python exceptions are modelled with
`Except`.  Values produced by the JSON decoder are modelled by the inductive
type `Json`, with Python truthiness made explicit.
-/

/-- Left brace character, written via its code point. -/
def lbrace : Char := Char.ofNat 123

/-- Right brace character, written via its code point. -/
def rbrace : Char := Char.ofNat 125

/-- Single-quote character, written via its code point. -/
def squote : Char := Char.ofNat 39

/-- `leadsWith needle hay` is true when `needle` occurs at the start of `hay`. -/
def leadsWith : List Char → List Char → Bool
  | [], _ => true
  | _ :: _, [] => false
  | a :: as, b :: bs => a == b && leadsWith as bs

/-- Substring containment, as Python's `in` operator on strings. -/
def containsSub : List Char → List Char → Bool
  | needle, [] => needle.isEmpty
  | needle, c :: t => leadsWith needle (c :: t) || containsSub needle t

/-- Python `str.split(sep)` on a single character separator, keeping empty parts. -/
def splitOn (sep : Char) : List Char → List (List Char)
  | [] => [[]]
  | c :: rest =>
    match splitOn sep rest with
    | [] => [[]]
    | h :: t => if c == sep then [] :: h :: t else (c :: h) :: t

/-- Python `line.split(sep, 1)[1]`: everything after the first occurrence of `sep`. -/
def afterFirstColon (line : List Char) : List Char :=
  (line.dropWhile (fun c => !(c == ':'))).drop 1

/-- Python whitespace characters recognised by `str.strip()`. -/
def pyIsSpace (c : Char) : Bool :=
  c == ' ' || c == '\t' || c == '\n' || c == '\r' || c == '\x0b' || c == '\x0c'

/-- Drop characters satisfying `p` from both ends of the list. -/
def dropEndsBy (p : Char → Bool) (s : List Char) : List Char :=
  ((s.dropWhile p).reverse.dropWhile p).reverse

/-- Python `str.strip()` (whitespace from both ends). -/
def pyStrip (s : List Char) : List Char :=
  dropEndsBy pyIsSpace s

/-- Python `str.strip(q)` for a one-character argument `q`. -/
def stripCh (q : Char) (s : List Char) : List Char :=
  dropEndsBy (fun c => c == q) s

/-- Python `str.lower()` (ASCII case folding, as used by the parser). -/
def pyLower (s : List Char) : List Char :=
  s.map Char.toLower

/-- Index of the first occurrence of `c`, as Python `str.find`. -/
def findIdxOpt (c : Char) : List Char → Option Nat
  | [] => none
  | x :: rest => if x == c then some 0 else (findIdxOpt c rest).map (· + 1)

/-- Index of the last occurrence of `c`, as Python `str.rfind`. -/
def rfindIdxOpt (c : Char) (s : List Char) : Option Nat :=
  match findIdxOpt c s.reverse with
  | none => none
  | some i => some (s.length - 1 - i)

/-- The substring from the first left brace to the last right brace, when
`json_start >= 0 and json_end > json_start` holds in the source
(`output.find` / `output.rfind` followed by the slice `output[json_start:json_end]`). -/
def jsonCandidate (output : List Char) : Option (List Char) :=
  match findIdxOpt lbrace output, rfindIdxOpt rbrace output with
  | some i, some j => if i < j + 1 then some ((output.drop i).take (j + 1 - i)) else none
  | _, _ => none

/-- JSON values as produced by `json.loads`.  Numbers keep their source
characters, which is enough to decide Python truthiness. -/
inductive Json where
  | null
  | bool (b : Bool)
  | num (raw : List Char)
  | str (s : List Char)
  | arr (xs : List Json)
  | obj (fields : List (List Char × Json))

/-- Python truthiness of a JSON value (`None`, `False`, `0`, `""`, `[]`, and
the empty dict are falsy). -/
def jsonTruthy : Json → Bool
  | Json.null => false
  | Json.bool b => b
  | Json.num raw =>
      (raw.takeWhile (fun c => !(c == 'e' || c == 'E'))).any (fun c => c.isDigit && !(c == '0'))
  | Json.str s => !s.isEmpty
  | Json.arr xs => !xs.isEmpty
  | Json.obj fs => !fs.isEmpty

/-- Truthiness of a Python variable that is either `None` or a JSON value. -/
def optTruthy : Option Json → Bool
  | none => false
  | some j => jsonTruthy j

/-- Python `dict.get` on the decoded object: later duplicate keys win, as in
`json.loads`. -/
def pyGet (fields : List (List Char × Json)) (k : List Char) : Option Json :=
  match fields with
  | [] => none
  | (k2, v) :: rest =>
    match pyGet rest k with
    | some v2 => some v2
    | none => if k2 == k then some v else none

/-- Python `a or b` on two `dict.get` results: the left value when truthy,
otherwise the right. -/
def pyOr (a b : Option Json) : Option Json :=
  match a with
  | some j => if jsonTruthy j then some j else b
  | none => b

/-- Whitespace skipping inside the JSON decoder. -/
def skipWs (s : List Char) : List Char :=
  s.dropWhile (fun c => c == ' ' || c == '\t' || c == '\n' || c == '\r')

/-- Value of a hexadecimal digit. -/
def hexVal (c : Char) : Option Nat :=
  let n := c.toNat
  if 48 ≤ n ∧ n ≤ 57 then some (n - 48)
  else if 97 ≤ n ∧ n ≤ 102 then some (n - 97 + 10)
  else if 65 ≤ n ∧ n ≤ 70 then some (n - 65 + 10)
  else none

/-- Decode a JSON string body after the opening quote, returning the decoded
characters and the rest of the input. -/
def parseStringBody : Nat → List Char → Option (List Char × List Char)
  | 0, _ => none
  | _, [] => none
  | Nat.succ fuel, c :: rest =>
    if c == '"' then some ([], rest)
    else if c == '\\' then
      match rest with
      | [] => none
      | e :: rest2 =>
        let cont : Char → List Char → Option (List Char × List Char) := fun ch r =>
          match parseStringBody fuel r with
          | some (s, r2) => some (ch :: s, r2)
          | none => none
        if e == '"' then cont '"' rest2
        else if e == '\\' then cont '\\' rest2
        else if e == '/' then cont '/' rest2
        else if e == 'n' then cont '\n' rest2
        else if e == 't' then cont '\t' rest2
        else if e == 'r' then cont '\r' rest2
        else if e == 'b' then cont '\x08' rest2
        else if e == 'f' then cont '\x0c' rest2
        else if e == 'u' then
          match rest2 with
          | h1 :: h2 :: h3 :: h4 :: rest3 =>
            match hexVal h1, hexVal h2, hexVal h3, hexVal h4 with
            | some a, some b, some c2, some d =>
              let n := ((a * 16 + b) * 16 + c2) * 16 + d
              if h : n.isValidChar then cont (Char.ofNatAux n h) rest3 else none
            | _, _, _, _ => none
          | _ => none
        else none
    else if c.toNat < 32 then none
    else
      match parseStringBody fuel rest with
      | some (s, r2) => some (c :: s, r2)
      | none => none

/-- Decode a JSON string body with enough fuel for its length. -/
def parseStr (s : List Char) : Option (List Char × List Char) :=
  parseStringBody (s.length + 1) s

/-- Leading digits of the input, and the rest. -/
def digitSpan (s : List Char) : List Char × List Char :=
  (s.takeWhile Char.isDigit, s.dropWhile Char.isDigit)

/-- Optional exponent part of a JSON number. -/
def parseExpPart (raw : List Char) (s : List Char) : Option (List Char × List Char) :=
  match s with
  | [] => some (raw, s)
  | c :: rest =>
    if c == 'e' || c == 'E' then
      let (sgn2, r2) :=
        match rest with
        | c2 :: r3 => if c2 == '+' || c2 == '-' then ([c2], r3) else ([], rest)
        | [] => ([], rest)
      let (ds, r4) := digitSpan r2
      if ds.isEmpty then none else some (raw ++ [c] ++ sgn2 ++ ds, r4)
    else some (raw, s)

/-- Optional fraction part of a JSON number, then the exponent. -/
def parseNumTail (raw : List Char) (s : List Char) : Option (List Char × List Char) :=
  match s with
  | '.' :: rest =>
    let (ds, r2) := digitSpan rest
    if ds.isEmpty then none else parseExpPart (raw ++ ['.'] ++ ds) r2
  | _ => parseExpPart raw s

/-- Decode a JSON number, returning its source characters and the rest. -/
def parseNumber (s : List Char) : Option (List Char × List Char) :=
  let (sgn, s1) :=
    match s with
    | c :: r => if c == '-' then ([c], r) else (([] : List Char), s)
    | [] => (([] : List Char), s)
  match s1 with
  | [] => none
  | c :: rest =>
    if c == '0' then parseNumTail (sgn ++ [c]) rest
    else if c.isDigit then
      let (ds, s2) := digitSpan s1
      parseNumTail (sgn ++ ds) s2
    else none

mutual

/-- Decode one JSON value (model of the grammar accepted by `json.loads`). -/
def parseValue : Nat → List Char → Option (Json × List Char)
  | 0, _ => none
  | Nat.succ fuel, s =>
    match skipWs s with
    | [] => none
    | c :: rest =>
      if c == lbrace then
        match skipWs rest with
        | c2 :: rest2 =>
          if c2 == rbrace then some (Json.obj [], rest2)
          else parseMembers fuel (c2 :: rest2) []
        | [] => none
      else if c == '[' then
        match skipWs rest with
        | c2 :: rest2 =>
          if c2 == ']' then some (Json.arr [], rest2)
          else parseElems fuel (c2 :: rest2) []
        | [] => none
      else if c == '"' then
        match parseStr rest with
        | some (str, r2) => some (Json.str str, r2)
        | none => none
      else if c == 't' then
        match rest with
        | 'r' :: 'u' :: 'e' :: r2 => some (Json.bool true, r2)
        | _ => none
      else if c == 'f' then
        match rest with
        | 'a' :: 'l' :: 's' :: 'e' :: r2 => some (Json.bool false, r2)
        | _ => none
      else if c == 'n' then
        match rest with
        | 'u' :: 'l' :: 'l' :: r2 => some (Json.null, r2)
        | _ => none
      else
        match parseNumber (c :: rest) with
        | some (raw, r2) => some (Json.num raw, r2)
        | none => none

/-- Decode the members of a JSON object after its opening brace. -/
def parseMembers : Nat → List Char → List (List Char × Json) → Option (Json × List Char)
  | 0, _, _ => none
  | Nat.succ fuel, s, acc =>
    match skipWs s with
    | '"' :: rest =>
      match parseStr rest with
      | some (key, r2) =>
        match skipWs r2 with
        | ':' :: r3 =>
          match parseValue fuel r3 with
          | some (v, r4) =>
            match skipWs r4 with
            | ',' :: r5 => parseMembers fuel r5 (acc ++ [(key, v)])
            | c :: r5 => if c == rbrace then some (Json.obj (acc ++ [(key, v)]), r5) else none
            | [] => none
          | none => none
        | _ => none
      | none => none
    | _ => none

/-- Decode the elements of a JSON array after its opening bracket. -/
def parseElems : Nat → List Char → List Json → Option (Json × List Char)
  | 0, _, _ => none
  | Nat.succ fuel, s, acc =>
    match parseValue fuel s with
    | some (v, r2) =>
      match skipWs r2 with
      | ',' :: r3 => parseElems fuel r3 (acc ++ [v])
      | ']' :: r3 => some (Json.arr (acc ++ [v]), r3)
      | _ => none
    | none => none

end

/-- Model of `json.loads`: decode the whole input as one JSON value, allowing
surrounding whitespace only. -/
def pyJsonLoads (s : List Char) : Option Json :=
  match parseValue (2 * s.length + 8) s with
  | some (v, rest) => if (skipWs rest).isEmpty then some v else none
  | none => none

/-- The JSON-extraction step shared verbatim by both generator strategies
(`generate_token_python` lines 82-91, `generate_token_docker` lines 141-150):
slice from the first left brace to the last right brace, decode, then read
`token`/`poToken` and `visitorData`/`visitor_data` with Python `or`.  Any
failure (no braces, bad JSON, non-dict value) leaves both variables `None`,
mirroring the bare `except: pass`. -/
def jsonStep (output : List Char) : Option Json × Option Json :=
  match jsonCandidate output with
  | none => (none, none)
  | some sub =>
    match pyJsonLoads sub with
    | some (Json.obj fields) =>
      (pyOr (pyGet fields ("token".toList)) (pyGet fields ("poToken".toList)),
       pyOr (pyGet fields ("visitorData".toList)) (pyGet fields ("visitor_data".toList)))
    | _ => (none, none)

/-- Condition of the token branch in the Python strategy's line scan:
`'token' in line_lower and ':' in line and len(line.split(':')) > 1`. -/
def pyTokenLineCond (line : List Char) : Bool :=
  containsSub ("token".toList) (pyLower line) && line.contains ':' &&
    decide ((splitOn ':' line).length > 1)

/-- Condition of the visitor branch in the Python strategy's line scan:
`('visitor' in line_lower and 'data' in line_lower) or 'visitordata' in line_lower`. -/
def pyVisitorLineCond (line : List Char) : Bool :=
  (containsSub ("visitor".toList) (pyLower line) && containsSub ("data".toList) (pyLower line))
    || containsSub ("visitordata".toList) (pyLower line)

/-- Candidate value from a matched line:
`line.split(':', 1)[1].strip().strip(dquote).strip(squote)`. -/
def candidateAfterColon (line : List Char) : List Char :=
  stripCh squote (stripCh '"' (pyStrip (afterFirstColon line)))

/-- Line-by-line fallback scan of the Python strategy (lines 94-103).  The
token candidate is kept only when longer than 20 characters; the visitor
candidate has no length filter.  Later matching lines overwrite earlier ones. -/
def lineScanPy : List (List Char) → Option Json → Option Json → Option Json × Option Json
  | [], t, v => (t, v)
  | line :: rest, t, v =>
    if pyTokenLineCond line then
      let cand := candidateAfterColon line
      if cand.length > 20 then lineScanPy rest (some (Json.str cand)) v
      else lineScanPy rest t v
    else if pyVisitorLineCond line then
      if line.contains ':' then lineScanPy rest t (some (Json.str (candidateAfterColon line)))
      else lineScanPy rest t v
    else lineScanPy rest t v

/-- Condition of the token branch in the Docker strategy's line scan:
`'token' in line.lower() and ':' in line` (no length filter follows). -/
def dockerTokenLineCond (line : List Char) : Bool :=
  containsSub ("token".toList) (pyLower line) && line.contains ':'

/-- Condition of the visitor branch in the Docker strategy's line scan:
`'visitor' in line.lower() and 'data' in line.lower() and ':' in line`. -/
def dockerVisitorLineCond (line : List Char) : Bool :=
  containsSub ("visitor".toList) (pyLower line) && containsSub ("data".toList) (pyLower line)
    && line.contains ':'

/-- Line-by-line fallback scan of the Docker strategy (lines 153-158).  Unlike
the Python strategy's scan, the token candidate is accepted regardless of its
length. -/
def lineScanDocker : List (List Char) → Option Json → Option Json → Option Json × Option Json
  | [], t, v => (t, v)
  | line :: rest, t, v =>
    if dockerTokenLineCond line then
      lineScanDocker rest (some (Json.str (candidateAfterColon line))) v
    else if dockerVisitorLineCond line then
      lineScanDocker rest t (some (Json.str (candidateAfterColon line)))
    else lineScanDocker rest t v

/-- Final check of both parsers: `if token and visitor_data: return dict else
return None` — a pair is returned only when both values are truthy. -/
def finalizePair (t v : Option Json) : Option (Json × Json) :=
  match t, v with
  | some tj, some vj => if jsonTruthy tj && jsonTruthy vj then some (tj, vj) else none
  | _, _ => none

/-- Output parser of the Python strategy (lines 79-110): JSON step first, the
line scan when either variable is still falsy, then the final truthiness check. -/
def parse_output_python (output : List Char) : Option (Json × Json) :=
  let s := jsonStep output
  let r :=
    if !optTruthy s.1 || !optTruthy s.2 then lineScanPy (splitOn '\n' output) s.1 s.2
    else s
  finalizePair r.1 r.2

/-- Output parser of the Docker strategy (lines 137-165): identical JSON step,
then the Docker line scan (no token length filter), then the final check. -/
def parse_output_docker (output : List Char) : Option (Json × Json) :=
  let s := jsonStep output
  let r :=
    if !optTruthy s.1 || !optTruthy s.2 then lineScanDocker (splitOn '\n' output) s.1 s.2
    else s
  finalizePair r.1 r.2

/-- Result of a completed `subprocess.run` call. -/
structure RunResult where
  returncode : Int
  stdout : List Char
  stderr : List Char

/-- Python exceptions (subclasses of `Exception`) that the subprocess calls
can raise: `subprocess.TimeoutExpired`, `FileNotFoundError`, or anything else. -/
inductive PyExn where
  | timeoutExpired
  | fileNotFound
  | other (msg : List Char)

/-- Environment oracle for one run of the Python strategy: the two
`os.path.exists` checks, the `glob.glob` result, the outcome of the Xvfb
`subprocess.Popen` call, and the outcome of the generator `subprocess.run`. -/
structure PyEnv where
  mainExists : Bool
  generateExists : Bool
  globFiles : List (List Char)
  popenRes : Except PyExn Unit
  runRes : Except PyExn RunResult

/-- Generator script selection (lines 42-53): `/app/generator/main.py`, then
`/app/generator/generate.py`, then the first `glob` hit; `none` is the
"Generator script not found" early return. -/
def generator_path (env : PyEnv) : Option (List Char) :=
  if env.mainExists then some ("/app/generator/main.py".toList)
  else if env.generateExists then some ("/app/generator/generate.py".toList)
  else env.globFiles.head?

/-- Body of the `try` block of `generate_token_python` (lines 38-110): script
lookup, Xvfb launch, generator run, then the output parser on
`stdout + stderr`.  An `Except.error` is an exception escaping the block. -/
def generate_token_python_body (env : PyEnv) : Except PyExn (Option (Json × Json)) :=
  match generator_path env with
  | none => Except.ok none
  | some _ =>
    match env.popenRes with
    | Except.error e => Except.error e
    | Except.ok _ =>
      match env.runRes with
      | Except.error e => Except.error e
      | Except.ok r => Except.ok (parse_output_python (r.stdout ++ r.stderr))

/-- `generate_token_python` (lines 36-117): the `try` body with its two
handlers, `except subprocess.TimeoutExpired` and `except Exception`, both of
which return `None`. -/
def generate_token_python (env : PyEnv) : Option (Json × Json) :=
  match generate_token_python_body env with
  | Except.ok v => v
  | Except.error PyExn.timeoutExpired => none
  | Except.error PyExn.fileNotFound => none
  | Except.error (PyExn.other _) => none

/-- Environment oracle for one run of the Docker strategy: the outcome of the
`docker run` `subprocess.run` call. -/
structure DockerEnv where
  runRes : Except PyExn RunResult

/-- `generate_token_docker` (lines 120-172).  A nonzero exit status returns
`None`; a completed run feeds `stdout` alone to the Docker output parser;
`except FileNotFoundError` and `except Exception` both fall back to
`generate_token_python`.  The boolean records whether the Python strategy was
re-attempted (an observation of the call, not program data). -/
def generate_token_docker (denv : DockerEnv) (penv : PyEnv) : Option (Json × Json) × Bool :=
  match denv.runRes with
  | Except.error PyExn.fileNotFound => (generate_token_python penv, true)
  | Except.error PyExn.timeoutExpired => (generate_token_python penv, true)
  | Except.error (PyExn.other _) => (generate_token_python penv, true)
  | Except.ok r =>
    if r.returncode != 0 then (none, false)
    else (parse_output_docker r.stdout, false)

/-- The generation orchestration inside the `/refresh` handler (lines
208-212): Python strategy first; Docker only when it failed and `USE_DOCKER`
is set.  The boolean records whether the Docker strategy was invoked. -/
def refreshGenerate (penv1 : PyEnv) (useDocker : Bool) (denv : DockerEnv) (penv2 : PyEnv) :
    Option (Json × Json) × Bool :=
  match generate_token_python penv1 with
  | some p => (some p, false)
  | none =>
    if useDocker then ((generate_token_docker denv penv2).1, true)
    else (none, false)

/-- JSON response bodies of the `/refresh` endpoint. -/
inductive RespBody where
  | ok (message : List Char)
  | err (error : List Char)

/-- Success message of the `/refresh` endpoint. -/
def msgRefreshed : List Char := "Token refreshed successfully".toList

/-- Error message when generation fails. -/
def msgGenFailed : List Char := "Failed to generate token".toList

/-- Error message when the Lavalink push fails. -/
def msgUpdateFailed : List Char := "Failed to update Lavalink".toList

/-- The `/refresh` handler `refresh_token` (lines 202-224), parameterised by
the generation outcome and the push outcome; `Except.error` inputs model an
exception raised inside the `try` block, caught by the trailing
`except Exception` which responds 500 with the exception message. -/
def refresh_token (gen : Except (List Char) (Option (Json × Json)))
    (push : Json → Json → Except (List Char) Bool) : Nat × RespBody :=
  match gen with
  | Except.error e => (500, RespBody.err e)
  | Except.ok none => (500, RespBody.err msgGenFailed)
  | Except.ok (some (t, v)) =>
    match push t v with
    | Except.error e => (500, RespBody.err e)
    | Except.ok true => (200, RespBody.ok msgRefreshed)
    | Except.ok false => (500, RespBody.err msgUpdateFailed)

/-- An outbound HTTP request as built by `update_lavalink_token`. -/
structure HttpRequest where
  url : List Char
  contentType : List Char
  authorization : List Char
  poToken : Json
  visitorData : Json

/-- The request built by `update_lavalink_token` (lines 178-186): URL
`LAVALINK_URL + "/youtube"`, JSON content type, the shared secret verbatim in
the Authorization header, and the payload fields. -/
def lavalinkRequest (lavalinkUrl password : List Char) (token visitor : Json) : HttpRequest :=
  { url := lavalinkUrl ++ "/youtube".toList
    contentType := "application/json".toList
    authorization := password
    poToken := token
    visitorData := visitor }

/-- `update_lavalink_token` (lines 175-199), with the `requests.post` call as
an oracle returning a status code or raising.  Returns the boolean outcome and
the list of requests issued (exactly one).  Only status 204 is success; any
other status or any exception yields `False`. -/
def update_lavalink_token (lavalinkUrl password : List Char) (token visitor : Json)
    (send : HttpRequest → Except (List Char) Nat) : Bool × List HttpRequest :=
  let req := lavalinkRequest lavalinkUrl password token visitor
  match send req with
  | Except.ok status => (status == 204, [req])
  | Except.error _ => (false, [req])

/-- The scheme literal prepended by the startup normalization. -/
def schemeHttp : List Char := "http://".toList

/-- The secure scheme literal accepted by the startup normalization. -/
def schemeHttps : List Char := "https://".toList

/-- Startup normalization of `LAVALINK_URL` (lines 22-25):
`if LAVALINK_URL and not LAVALINK_URL.startswith(("http://", "https://"))`,
prepend `http://`. -/
def normalize_lavalink_url (s : List Char) : List Char :=
  if !s.isEmpty && !(leadsWith schemeHttp s || leadsWith schemeHttps s)
  then schemeHttp ++ s else s

/-- A token line whose candidate has exactly 15 characters. -/
def tokLine15 : List Char := "token: abcdefghijklmno".toList

/-- C1 (counterexample): the claim asserts the strictly-greater-than-20 length
filter for the line scans of both strategies, but the Docker strategy's line
scan has no length filter: on output whose token candidate has exactly 15
characters it accepts the candidate and returns a pair. -/
theorem c1_counterexample :
    parse_output_docker ("token: abcdefghijklmno\nvisitordata: xyz987".toList) =
      some (Json.str ("abcdefghijklmno".toList), Json.str ("xyz987".toList)) ∧
    ("abcdefghijklmno".toList).length = 15 :=
  ⟨rfl, rfl⟩

/-- C1 (amended): in the Python strategy's line scan, a line matching the
token condition updates the token variable only when the trimmed, quote-strip
candidate is strictly longer than 20 characters; a candidate of length at most
20 (in particular 15) leaves the scan state unchanged.  The Docker strategy's
line scan applies no such filter. -/
theorem c1_token_length_filter :
    ∀ (line : List Char) (rest : List (List Char)) (t v : Option Json),
    pyTokenLineCond line = true →
    ((candidateAfterColon line).length ≤ 20 →
      lineScanPy (line :: rest) t v = lineScanPy rest t v) ∧
    (20 < (candidateAfterColon line).length →
      lineScanPy (line :: rest) t v =
        lineScanPy rest (some (Json.str (candidateAfterColon line))) v) := by
  intro line rest t v h
  constructor
  · intro hle
    simp only [lineScanPy, h, if_true]
    rw [if_neg (by omega)]
  · intro hgt
    simp only [lineScanPy, h, if_true]
    rw [if_pos hgt]

/-- C1 (witness): concrete instance of the amended theorem at a 15-character
candidate: the line matches the token condition yet yields no token. -/
theorem c1_witness :
    pyTokenLineCond tokLine15 = true ∧ lineScanPy [tokLine15] none none = (none, none) := by
  refine ⟨by decide, ?_⟩
  rw [(c1_token_length_filter tokLine15 [] none none (by decide)).1 (by decide)]
  rfl

/-- A well-formed embedded JSON object carrying both credential fields. -/
def embeddedJson : List Char :=
  "\x7b\"token\": \"abcdefghijklmnopqrstu123\", \"visitorData\": \"vd1\"\x7d".toList

/-- Output surrounding the embedded JSON with noise that contains a left brace
before it. -/
def noisyOutput : List Char := "junk \x7b noise\n".toList ++ embeddedJson

/-- C2 (counterexample): the claim quantifies over arbitrary surrounding
noise, but noise containing a left brace before the JSON breaks the
first-brace-to-last-brace extraction: the sliced substring is not valid JSON,
the line scan cannot recover the visitor field, and both parsers return
`none` instead of the embedded pair. -/
theorem c2_counterexample :
    pyJsonLoads embeddedJson =
      some (Json.obj [("token".toList, Json.str ("abcdefghijklmnopqrstu123".toList)),
                      ("visitorData".toList, Json.str ("vd1".toList))]) ∧
    parse_output_python noisyOutput = none ∧
    parse_output_docker noisyOutput = none :=
  ⟨rfl, rfl, rfl⟩

/-- C2 (amended): whenever the JSON-extraction step itself (slice from the
first left brace to the last right brace, decode, read the token and visitor
keys) produces two truthy values — in particular whenever the surrounding
noise contributes no brace before or after the embedded JSON — both parsers
return exactly that pair. -/
theorem c2_json_extraction : ∀ (output : List Char) (tj vj : Json),
    jsonStep output = (some tj, some vj) → jsonTruthy tj = true → jsonTruthy vj = true →
    parse_output_python output = some (tj, vj) ∧ parse_output_docker output = some (tj, vj) := by
  intro output tj vj h htj hvj
  constructor
  · simp [parse_output_python, h, optTruthy, htj, hvj, finalizePair]
  · simp [parse_output_docker, h, optTruthy, htj, hvj, finalizePair]

/-- Output surrounding the embedded JSON with brace-free noise. -/
def cleanOutput : List Char :=
  "noise before ".toList ++ embeddedJson ++ " and after".toList

/-- Token value embedded in `embeddedJson`. -/
def tokValC2 : Json := Json.str ("abcdefghijklmnopqrstu123".toList)

/-- Visitor value embedded in `embeddedJson`. -/
def vdValC2 : Json := Json.str ("vd1".toList)

/-- C2 (witness): concrete instance of the amended theorem on output with
brace-free noise around the embedded JSON. -/
theorem c2_witness :
    jsonStep cleanOutput = (some tokValC2, some vdValC2) ∧
    parse_output_python cleanOutput = some (tokValC2, vdValC2) :=
  ⟨rfl, (c2_json_extraction cleanOutput tokValC2 vdValC2 rfl rfl rfl).1⟩

/-- C10 (counterexample): the claim says every configured value not starting
with a scheme gets `http://` prepended, but the code guards on truthiness
first: the empty configured value is left unchanged, not prefixed. -/
theorem c10_counterexample :
    normalize_lavalink_url [] = [] ∧ normalize_lavalink_url [] ≠ schemeHttp ++ [] := by
  decide

/-- C10 (amended): for a non-empty configured value not starting with
`http://` or `https://`, the prefix `http://` is prepended; a value already
starting with either scheme is left unchanged (the empty value is also left
unchanged). -/
theorem c10_url_normalization : ∀ s : List Char,
    (s ≠ [] → (leadsWith schemeHttp s || leadsWith schemeHttps s) = false →
      normalize_lavalink_url s = schemeHttp ++ s) ∧
    ((leadsWith schemeHttp s || leadsWith schemeHttps s) = true →
      normalize_lavalink_url s = s) := by
  intro s
  constructor
  · intro hne hsch
    have hni : s.isEmpty = false := by
      cases s with
      | nil => exact absurd rfl hne
      | cons a t => rfl
    simp [normalize_lavalink_url, hni, hsch]
  · intro hsch
    simp [normalize_lavalink_url, hsch]

/-- C10 (witness): concrete instances of the amended theorem: a bare
host-and-port value gets the scheme prepended; an `https://` value is kept. -/
theorem c10_witness :
    normalize_lavalink_url ("localhost:9296".toList) = schemeHttp ++ "localhost:9296".toList ∧
    normalize_lavalink_url ("https://example.com".toList) = "https://example.com".toList :=
  ⟨(c10_url_normalization ("localhost:9296".toList)).1 (by decide) (by decide),
   (c10_url_normalization ("https://example.com".toList)).2 (by decide)⟩

/-- C3: the refresh path tries the Python strategy first; a Python success is
returned as-is and the Docker strategy is never invoked; a Python failure with
`USE_DOCKER` disabled fails overall without any Docker call. -/
theorem c3_orchestration_order :
    ∀ (penv1 : PyEnv) (useDocker : Bool) (denv : DockerEnv) (penv2 : PyEnv),
    (∀ p, generate_token_python penv1 = some p →
      refreshGenerate penv1 useDocker denv penv2 = (some p, false)) ∧
    (generate_token_python penv1 = none → useDocker = false →
      refreshGenerate penv1 useDocker denv penv2 = (none, false)) := by
  intro penv1 useDocker denv penv2
  constructor
  · intro p h
    simp [refreshGenerate, h]
  · intro h hu
    subst hu
    simp [refreshGenerate, h]

/-- Generator output carrying a well-formed JSON credential pair. -/
def pyOutOk : List Char :=
  "\x7b\"token\": \"tokenvalue-abcdefghijklm\", \"visitorData\": \"vd2\"\x7d".toList

/-- Python-strategy environment in which the generator run succeeds. -/
def penvOk : PyEnv :=
  { mainExists := true, generateExists := false, globFiles := []
    popenRes := Except.ok ()
    runRes := Except.ok { returncode := 0, stdout := pyOutOk, stderr := [] } }

/-- Python-strategy environment in which no generator script is found. -/
def penvNotFound : PyEnv :=
  { mainExists := false, generateExists := false, globFiles := []
    popenRes := Except.ok ()
    runRes := Except.ok { returncode := 0, stdout := [], stderr := [] } }

/-- Docker environment whose `docker run` completes with exit status 1. -/
def denvExitOne : DockerEnv := ⟨Except.ok { returncode := 1, stdout := [], stderr := [] }⟩

/-- Docker environment whose `docker run` raises `subprocess.TimeoutExpired`. -/
def denvTimeout : DockerEnv := ⟨Except.error PyExn.timeoutExpired⟩

/-- C3 (witness): with a succeeding Python environment the orchestration
returns its pair without invoking Docker; with a failing one and Docker
disabled it fails without invoking Docker. -/
theorem c3_witness :
    refreshGenerate penvOk true denvExitOne penvNotFound =
      (some (Json.str ("tokenvalue-abcdefghijklm".toList), Json.str ("vd2".toList)), false) ∧
    refreshGenerate penvNotFound false denvExitOne penvNotFound = (none, false) :=
  ⟨(c3_orchestration_order penvOk true denvExitOne penvNotFound).1
      (Json.str ("tokenvalue-abcdefghijklm".toList), Json.str ("vd2".toList)) rfl,
   (c3_orchestration_order penvNotFound false denvExitOne penvNotFound).2 rfl rfl⟩

/-- C4: the `/refresh` endpoint answers 200 with the success body exactly when
generation yields a pair and the push returns true; generation failure,
push failure, and exceptions from either step each produce the specified
500 body, with exceptions surfaced as their message. -/
theorem c4_refresh_responses :
    ∀ (gen : Except (List Char) (Option (Json × Json)))
      (push : Json → Json → Except (List Char) Bool),
    (refresh_token gen push = (200, RespBody.ok msgRefreshed) ↔
      ∃ t v, gen = Except.ok (some (t, v)) ∧ push t v = Except.ok true) ∧
    (gen = Except.ok none → refresh_token gen push = (500, RespBody.err msgGenFailed)) ∧
    (∀ t v, gen = Except.ok (some (t, v)) → push t v = Except.ok false →
      refresh_token gen push = (500, RespBody.err msgUpdateFailed)) ∧
    (∀ e, gen = Except.error e → refresh_token gen push = (500, RespBody.err e)) ∧
    (∀ t v e, gen = Except.ok (some (t, v)) → push t v = Except.error e →
      refresh_token gen push = (500, RespBody.err e)) := by
  intro gen push
  refine ⟨⟨?_, ?_⟩, ?_, ?_, ?_, ?_⟩
  · intro h
    rcases gen with e | tok
    · simp [refresh_token] at h
    · rcases tok with _ | ⟨t, v⟩
      · simp [refresh_token] at h
      · rcases hp : push t v with e | b
        · simp [refresh_token, hp] at h
        · cases b
          · simp [refresh_token, hp] at h
          · exact ⟨t, v, rfl, hp⟩
  · rintro ⟨t, v, hg, hp⟩
    subst hg
    simp [refresh_token, hp]
  · intro h
    subst h
    rfl
  · intro t v h hp
    subst h
    simp [refresh_token, hp]
  · intro e h
    subst h
    rfl
  · intro t v e h hp
    subst h
    simp [refresh_token, hp]

/-- Push oracle that always reports success. -/
def pushOk : Json → Json → Except (List Char) Bool := fun _ _ => Except.ok true

/-- Push oracle that always reports failure. -/
def pushBad : Json → Json → Except (List Char) Bool := fun _ _ => Except.ok false

/-- C4 (witness): the four outcomes at concrete generation and push oracles. -/
theorem c4_witness :
    refresh_token (Except.ok (some (Json.str ("t1".toList), Json.str ("v1".toList)))) pushOk =
      (200, RespBody.ok msgRefreshed) ∧
    refresh_token (Except.ok none) pushOk = (500, RespBody.err msgGenFailed) ∧
    refresh_token (Except.ok (some (Json.str ("t1".toList), Json.str ("v1".toList)))) pushBad =
      (500, RespBody.err msgUpdateFailed) ∧
    refresh_token (Except.error ("boom".toList)) pushOk = (500, RespBody.err ("boom".toList)) :=
  ⟨((c4_refresh_responses _ pushOk).1).mpr ⟨_, _, rfl, rfl⟩,
   (c4_refresh_responses _ pushOk).2.1 rfl,
   (c4_refresh_responses _ pushBad).2.2.1 _ _ rfl rfl,
   (c4_refresh_responses _ pushOk).2.2.2.1 _ rfl⟩

/-- C5: the proxy updater issues exactly one request, to
`LAVALINK_URL + "/youtube"`, JSON content type, the shared secret verbatim in
the Authorization header and the two payload fields, and returns true exactly
when the response status is 204; any other status or a raised error gives
false. -/
theorem c5_proxy_push :
    ∀ (lavalinkUrl password : List Char) (token visitor : Json)
      (send : HttpRequest → Except (List Char) Nat),
    (update_lavalink_token lavalinkUrl password token visitor send).2 =
      [lavalinkRequest lavalinkUrl password token visitor] ∧
    (lavalinkRequest lavalinkUrl password token visitor).url =
      lavalinkUrl ++ "/youtube".toList ∧
    (lavalinkRequest lavalinkUrl password token visitor).authorization = password ∧
    (lavalinkRequest lavalinkUrl password token visitor).contentType =
      "application/json".toList ∧
    (lavalinkRequest lavalinkUrl password token visitor).poToken = token ∧
    (lavalinkRequest lavalinkUrl password token visitor).visitorData = visitor ∧
    ((update_lavalink_token lavalinkUrl password token visitor send).1 = true ↔
      send (lavalinkRequest lavalinkUrl password token visitor) = Except.ok 204) := by
  intro url pw t v send
  refine ⟨?_, rfl, rfl, rfl, rfl, rfl, ?_⟩
  · rcases h : send (lavalinkRequest url pw t v) with e | s <;>
      simp [update_lavalink_token, h]
  · rcases h : send (lavalinkRequest url pw t v) with e | s <;>
      simp [update_lavalink_token, h]

/-- C6: neither strategy lets an exception escape.  Every exception raised in
the Python strategy's body is handled and yields `none`; a raised `run`, a
raised `Popen`, and a missing generator script each yield `none`; every
exception in the Docker invocation resolves to the Python re-attempt's
outcome, and a completed Docker run with nonzero exit yields `none`. -/
theorem c6_no_uncaught : ∀ (penv : PyEnv) (denv : DockerEnv) (penv2 : PyEnv),
    (∀ e, generate_token_python_body penv = Except.error e →
      generate_token_python penv = none) ∧
    (∀ e, penv.runRes = Except.error e → generate_token_python penv = none) ∧
    (∀ e, penv.popenRes = Except.error e → generate_token_python penv = none) ∧
    (penv.mainExists = false → penv.generateExists = false → penv.globFiles = [] →
      generate_token_python penv = none) ∧
    (∀ e, denv.runRes = Except.error e →
      generate_token_docker denv penv2 = (generate_token_python penv2, true)) ∧
    (∀ r, denv.runRes = Except.ok r → ¬r.returncode = 0 →
      generate_token_docker denv penv2 = (none, false)) := by
  intro penv denv penv2
  refine ⟨?_, ?_, ?_, ?_, ?_, ?_⟩
  · intro e h
    unfold generate_token_python
    rw [h]
    cases e <;> rfl
  · intro e h
    unfold generate_token_python generate_token_python_body
    rw [h]
    rcases hgp : generator_path penv with _ | path
    · rfl
    · rcases hpr : penv.popenRes with e2 | u
      · cases e2 <;> rfl
      · cases e <;> rfl
  · intro e h
    unfold generate_token_python generate_token_python_body
    rw [h]
    rcases hgp : generator_path penv with _ | path
    · rfl
    · cases e <;> rfl
  · intro h1 h2 h3
    unfold generate_token_python generate_token_python_body generator_path
    rw [h1, h2, h3]
    rfl
  · intro e h
    unfold generate_token_docker
    rw [h]
    cases e <;> rfl
  · intro r h hne
    unfold generate_token_docker
    rw [h]
    simp [hne]

/-- Python-strategy environment whose Xvfb launch raises. -/
def penvPopenFail : PyEnv :=
  { mainExists := true, generateExists := false, globFiles := []
    popenRes := Except.error (PyExn.other ("xvfb missing".toList))
    runRes := Except.ok { returncode := 0, stdout := [], stderr := [] } }

/-- Python-strategy environment whose generator run times out. -/
def penvRunTimeout : PyEnv :=
  { mainExists := true, generateExists := false, globFiles := []
    popenRes := Except.ok ()
    runRes := Except.error PyExn.timeoutExpired }

/-- C6 (witness): the caught-and-resolved outcomes at concrete environments:
a timed-out run, a failed Xvfb launch, a missing script, a raised Docker
invocation and a nonzero Docker exit. -/
theorem c6_witness :
    generate_token_python penvRunTimeout = none ∧
    generate_token_python penvPopenFail = none ∧
    generate_token_python penvNotFound = none ∧
    generate_token_docker denvTimeout penvNotFound = (generate_token_python penvNotFound, true) ∧
    generate_token_docker denvExitOne penvNotFound = (none, false) :=
  ⟨(c6_no_uncaught penvRunTimeout denvTimeout penvNotFound).1 PyExn.timeoutExpired rfl,
   (c6_no_uncaught penvPopenFail denvTimeout penvNotFound).2.2.1
      (PyExn.other ("xvfb missing".toList)) rfl,
   (c6_no_uncaught penvNotFound denvTimeout penvNotFound).2.2.2.1 rfl rfl rfl,
   (c6_no_uncaught penvNotFound denvTimeout penvNotFound).2.2.2.2.1 PyExn.timeoutExpired rfl,
   (c6_no_uncaught penvNotFound denvExitOne penvNotFound).2.2.2.2.2
      { returncode := 1, stdout := [], stderr := [] } rfl (by decide)⟩

/-- Truthiness of both components of a pair accepted by the final check. -/
theorem finalize_some_truthy : ∀ (a b : Option Json) (t v : Json),
    finalizePair a b = some (t, v) → jsonTruthy t = true ∧ jsonTruthy v = true := by
  intro a b t v h
  rcases a with _ | tj
  · simp [finalizePair] at h
  · rcases b with _ | vj
    · simp [finalizePair] at h
    · simp only [finalizePair] at h
      by_cases hc : (jsonTruthy tj && jsonTruthy vj) = true
      · rw [if_pos hc] at h
        simp only [Option.some.injEq, Prod.mk.injEq] at h
        obtain ⟨ht, hv⟩ := h
        subst ht
        subst hv
        simp only [Bool.and_eq_true] at hc
        exact hc
      · rw [if_neg hc] at h
        exact absurd h (by simp)

/-- C7: the parsers never raise on malformed JSON: when the brace-delimited
substring fails to decode the JSON step yields nothing and both parsers reduce
to their line scans started from `None`, and a returned pair always has two
truthy components — a missing field gives `none`, never a partial pair. -/
theorem c7_malformed_json : ∀ (output : List Char),
    (∀ sub, jsonCandidate output = some sub → pyJsonLoads sub = none →
      jsonStep output = (none, none)) ∧
    (jsonStep output = (none, none) →
      parse_output_python output =
        finalizePair (lineScanPy (splitOn '\n' output) none none).1
          (lineScanPy (splitOn '\n' output) none none).2 ∧
      parse_output_docker output =
        finalizePair (lineScanDocker (splitOn '\n' output) none none).1
          (lineScanDocker (splitOn '\n' output) none none).2) ∧
    (∀ t v, parse_output_python output = some (t, v) →
      jsonTruthy t = true ∧ jsonTruthy v = true) ∧
    (∀ t v, parse_output_docker output = some (t, v) →
      jsonTruthy t = true ∧ jsonTruthy v = true) := by
  intro output
  refine ⟨?_, ?_, ?_, ?_⟩
  · intro sub h1 h2
    simp [jsonStep, h1, h2]
  · intro h
    constructor
    · simp [parse_output_python, h, optTruthy]
    · simp [parse_output_docker, h, optTruthy]
  · intro t v h
    simp only [parse_output_python] at h
    exact finalize_some_truthy _ _ t v h
  · intro t v h
    simp only [parse_output_docker] at h
    exact finalize_some_truthy _ _ t v h

/-- Output whose brace-delimited substring is not valid JSON, followed by
scannable lines. -/
def badOutput : List Char :=
  "\x7boops\x7d\ntoken: abcdefghijklmnopqrstuvwxyz\nvisitordata: xyz987".toList

/-- C7 (witness): on a concrete malformed-JSON output the decode fails, the
JSON step yields nothing, the parser equals its line-scan fallback, and the
pair the fallback recovers has two truthy components. -/
theorem c7_witness :
    jsonCandidate badOutput = some ("\x7boops\x7d".toList) ∧
    pyJsonLoads ("\x7boops\x7d".toList) = none ∧
    jsonStep badOutput = (none, none) ∧
    parse_output_python badOutput =
      finalizePair (lineScanPy (splitOn '\n' badOutput) none none).1
        (lineScanPy (splitOn '\n' badOutput) none none).2 ∧
    jsonTruthy (Json.str ("abcdefghijklmnopqrstuvwxyz".toList)) = true ∧
    jsonTruthy (Json.str ("xyz987".toList)) = true :=
  ⟨rfl, rfl,
   (c7_malformed_json badOutput).1 ("\x7boops\x7d".toList) rfl rfl,
   ((c7_malformed_json badOutput).2.1 rfl).1,
   ((c7_malformed_json badOutput).2.2.1 (Json.str ("abcdefghijklmnopqrstuvwxyz".toList))
      (Json.str ("xyz987".toList)) rfl).1,
   ((c7_malformed_json badOutput).2.2.1 (Json.str ("abcdefghijklmnopqrstuvwxyz".toList))
      (Json.str ("xyz987".toList)) rfl).2⟩

/-- C8: when the Docker invocation raises `FileNotFoundError` (the runtime is
missing), the Docker strategy re-attempts the Python strategy and returns that
strategy's outcome, not a generic failure. -/
theorem c8_docker_unavailable_fallback : ∀ penv : PyEnv,
    generate_token_docker ⟨Except.error PyExn.fileNotFound⟩ penv =
      (generate_token_python penv, true) := by
  intro penv
  rfl

/-- C9: every exception from the Docker invocation — runtime missing, timeout
or any other launch error — resolves to the Python re-attempt's outcome, while
a completed run with nonzero exit status returns `none` directly, with no
Python re-attempt. -/
theorem c9_docker_exception_paths : ∀ (denv : DockerEnv) (penv : PyEnv),
    (∀ e, denv.runRes = Except.error e →
      generate_token_docker denv penv = (generate_token_python penv, true)) ∧
    (∀ r, denv.runRes = Except.ok r → r.returncode ≠ 0 →
      generate_token_docker denv penv = (none, false)) := by
  intro denv penv
  constructor
  · intro e h
    unfold generate_token_docker
    rw [h]
    cases e <;> rfl
  · intro r h hne
    unfold generate_token_docker
    rw [h]
    simp [hne]

/-- C9 (witness): a timed-out Docker invocation falls back to the Python
strategy; an exit status of 1 returns `none` without a Python re-attempt. -/
theorem c9_witness :
    generate_token_docker denvTimeout penvNotFound =
      (generate_token_python penvNotFound, true) ∧
    generate_token_docker denvExitOne penvNotFound = (none, false) :=
  ⟨(c9_docker_exception_paths denvTimeout penvNotFound).1 PyExn.timeoutExpired rfl,
   (c9_docker_exception_paths denvExitOne penvNotFound).2
      { returncode := 1, stdout := [], stderr := [] } rfl (by decide)⟩
